import Mathlib

set_option maxRecDepth 8192
set_option linter.unusedVariables false

/-!
Shallow embedding of the StravaAI backend (FastAPI + Motor/MongoDB) core:
token expiry checks (`app/auth/strava_oauth.py`), token encryption
(`app/utils/encryption.py`), the Strava API client's 401-retry policy
(`app/api/strava_client.py`), activity sync and aggregation
(`app/database/db_operations.py`), and the insight orchestration pipeline
(`app/ai/insight_service.py`, `app/ai/providers.py`).

Python dict values arriving from the LLM are modelled by `JVal`; Python's
`str`, truthiness, `.strip()`, `.lower()` and slicing are modelled by the
`py*` helpers below.
-/

/-- A JSON-like Python value as handled by the insight pipeline. -/
inductive JVal where
  | str (s : String)
  | num (n : Int)
  | bool (b : Bool)
  | null
  | list (xs : List JVal)

/-- Single-quote character, used by `pyRepr` for string values. -/
def pySQuote : String := String.mk [Char.ofNat 39]

mutual

/-- Python `repr` of a `JVal` (numbers, booleans, `None`, lists; strings quoted). -/
def pyRepr : JVal → String
  | .str s => pySQuote ++ s ++ pySQuote
  | .num n => toString n
  | .bool true => "True"
  | .bool false => "False"
  | .null => "None"
  | .list xs => "[" ++ String.intercalate ", " (pyReprList xs) ++ "]"

/-- Python `repr` of each element of a list of values. -/
def pyReprList : List JVal → List String
  | [] => []
  | v :: vs => pyRepr v :: pyReprList vs

end

/-- Python `str()` of a `JVal`: identity on strings, `repr` otherwise. -/
def pyStr : JVal → String
  | .str s => s
  | v => pyRepr v

/-- Python truthiness of a `JVal`. -/
def pyTruthy : JVal → Bool
  | .str s => !(s == "")
  | .num n => !(n == 0)
  | .bool b => b
  | .null => false
  | .list xs => !xs.isEmpty

/-- Python `s[:n]` slicing on strings (first `n` code points). -/
def pySlice (s : String) (n : Nat) : String :=
  ⟨s.data.take n⟩

/-- Python `s.strip()`: drop leading and trailing whitespace. -/
def pyStrip (s : String) : String :=
  ⟨((s.data.dropWhile Char.isWhitespace).reverse.dropWhile Char.isWhitespace).reverse⟩

/-- ASCII uppercase test (`A`–`Z`), mirroring CPython's byte-level case mapping. -/
def isAsciiUpper (c : Char) : Bool :=
  decide (65 ≤ c.toNat ∧ c.toNat ≤ 90)

/-- Lowercase one character, ASCII model of Python `str.lower`. -/
def pyCharLower (c : Char) : Char :=
  if isAsciiUpper c then Char.ofNat (c.toNat + 32) else c

/-- Python `s.lower()` (ASCII model). -/
def pyLower (s : String) : String :=
  ⟨s.data.map pyCharLower⟩

/-- Python `raw.get(k, dflt)` on a dict modelled as an association list. -/
def jget (raw : List (String × JVal)) (k : String) (dflt : JVal) : JVal :=
  match raw.find? (fun kv => kv.1 == k) with
  | some kv => kv.2
  | none => dflt

/-- The normalized insight payload persisted on an activity
(`_coerce_insight_payload`'s return dict in `app/ai/insight_service.py`). -/
structure InsightPayload where
  summary : String
  coach_tips : List String
  tags : List String
  model : Option String
  generated_at : Nat
deriving Repr, DecidableEq

/-- Embedding of `_coerce_insight_payload` (`app/ai/insight_service.py`, lines 25-42).
`now` stands for the `datetime.utcnow()` call. -/
def _coerce_insight_payload (raw : List (String × JVal)) (now : Nat) : InsightPayload :=
  let summary := pyStrip (pyStr (jget raw "summary" (.str "")))
  let tipsV := jget raw "coach_tips" .null
  let tipsV := if pyTruthy tipsV then tipsV else .list []
  let tipsList : List JVal :=
    match tipsV with
    | .list xs => xs
    | v => if pyTruthy v then [.str (pyStr v)] else []
  let tips := (tipsList.filter pyTruthy).map (fun t => pyStrip (pyStr t))
  let tagsV := jget raw "tags" .null
  let tagsV := if pyTruthy tagsV then tagsV else .list []
  let tagsList : List JVal :=
    match tagsV with
    | .list xs => xs
    | v => if pyTruthy v then [.str (pyStr v)] else []
  let tags := (tagsList.filter pyTruthy).map (fun t => pyLower (pyStrip (pyStr t)))
  let modelS := pyStrip (pyStr (jget raw "model" (.str "")))
  { summary := pySlice summary 280
    coach_tips := tips.take 3
    tags := tags.take 5
    model := if modelS == "" then none else some modelS
    generated_at := now }

/-- Outcome of the LiteLLM `acompletion` call plus JSON parsing in
`AIClient.generate_json`: either a parsed JSON dict, or any exception /
unparseable output (both are caught by the same `except` clause). -/
inductive LLMOutcome where
  | success (parsed : List (String × JVal))
  | failure

/-- The deterministic payload returned when no API key is configured
(`app/ai/providers.py`, lines 54-64). -/
def mockPayload (provider modelName : String) : List (String × JVal) :=
  [("summary", .str "Solid session focusing on aerobic base."),
   ("coach_tips", .list [.str "Keep cadence smooth and controlled.",
                         .str "Fuel earlier for longer efforts."]),
   ("tags", .list [.str "endurance"]),
   ("model", .str ("mock:" ++ provider ++ ":" ++ modelName))]

/-- The deterministic payload returned when the provider call fails or its
output cannot be parsed (`app/ai/providers.py`, lines 93-103). -/
def fallbackPayload (provider modelName : String) : List (String × JVal) :=
  [("summary", .str "Solid session focusing on aerobic base."),
   ("coach_tips", .list [.str "Keep cadence smooth and controlled.",
                         .str "Fuel earlier for longer efforts."]),
   ("tags", .list [.str "endurance"]),
   ("model", .str ("fallback:" ++ provider ++ ":" ++ modelName))]

/-- Embedding of `AIClient.generate_json` (`app/ai/providers.py`, lines 47-103).
`apiKeyPresent` models `self.config.api_key` being non-empty; `o` is the
upstream LLM call outcome. -/
def generate_json (provider modelName : String) (apiKeyPresent : Bool)
    (o : LLMOutcome) : List (String × JVal) :=
  if !apiKeyPresent then mockPayload provider modelName
  else
    match o with
    | .success raw => raw
    | .failure => fallbackPayload provider modelName

/-- Embedding of `is_strava_token_expired` (`app/auth/strava_oauth.py`, lines 37-44).
The input is `none` for a falsy `token_data` (Python `None` or an empty dict),
`some none` for a dict lacking the `expires_at` key, and `some (some e)` for a
dict with `expires_at = e`. Times are in epoch seconds (rationals, since the
Python values are float timestamps). -/
def is_strava_token_expired (token_data : Option (Option ℚ)) (now : ℚ) : Bool :=
  match token_data with
  | none => true
  | some none => true
  | some (some expires_at) => decide (now > expires_at - 5 * 60)

/-- An abstract symmetric cipher standing for the `cryptography.fernet.Fernet`
instance in `app/utils/encryption.py`: `enc` never raises on a valid key, and
`dec` returns `none` exactly when the library would raise (corrupt ciphertext,
wrong key). -/
structure Cipher where
  enc : String → String
  dec : String → Option String

/-- Embedding of `encrypt_token` (`app/utils/encryption.py`, lines 28-37). -/
def encrypt_token (c : Cipher) (token : String) : String :=
  if token == "" then "" else c.enc token

/-- Embedding of `decrypt_token` (`app/utils/encryption.py`, lines 39-48):
a failed decryption is swallowed and surfaces as the empty string. -/
def decrypt_token (c : Cipher) (encrypted_token : String) : String :=
  if encrypted_token == "" then ""
  else
    match c.dec encrypted_token with
    | some plain => plain
    | none => ""

/-- A concrete cipher used to witness the round-trip theorem: prepend a
marker character, strip it on decryption. -/
def toyCipher : Cipher where
  enc t := String.mk ('E' :: t.data)
  dec s :=
    match s.data with
    | 'E' :: cs => some (String.mk cs)
    | _ => none

/-- An HTTP response from the Strava API as seen by `BaseAPIClient.handle_response`
(`app/api/base_client.py`, lines 47-64): a 200 with a body, or an error status
re-raised as an `HTTPException` carrying that status code. -/
inductive HttpResp where
  | ok (body : Nat)
  | err (code : Nat)
deriving Repr, DecidableEq

/-- The upstream environment for one `get_user_profile` call: the response to
the first request, the result of the forced token refresh (`none` models a
non-200 from the refresh endpoint), and the response to the retried request. -/
structure Upstream where
  resp1 : HttpResp
  refreshResult : Option Nat
  resp2 : HttpResp
deriving Repr, DecidableEq

/-- Final outcome of a client call: a body, or a propagated error status. -/
inductive CallResult where
  | ok (body : Nat)
  | error (code : Nat)
deriving Repr, DecidableEq

/-- Observable trace of one `get_user_profile` call: how many HTTP requests to
the resource endpoint were made, how many token refreshes were attempted, and
the final outcome (body, or propagated error status). -/
structure CallTrace where
  requests : Nat
  refreshes : Nat
  result : CallResult
deriving Repr, DecidableEq

/-- Embedding of the 401-handling control flow of `StravaAPIClient.get_user_profile`
(`app/api/strava_client.py`, lines 56-91): the first request's 401 triggers
exactly one forced refresh; if the refresh fails the original 401 is re-raised;
otherwise the request is retried once and its outcome (including a second 401)
propagates to the caller with no further handling. -/
def get_user_profile (u : Upstream) : CallTrace :=
  match u.resp1 with
  | .ok b => ⟨1, 0, .ok b⟩
  | .err code =>
    if code == 401 then
      match u.refreshResult with
      | none => ⟨1, 1, .error code⟩
      | some _ =>
        match u.resp2 with
        | .ok b => ⟨2, 1, .ok b⟩
        | .err code2 => ⟨2, 1, .error code2⟩
    else ⟨1, 0, .error code⟩

/-- A stored activity document in the `activities` collection, with the fields
written by the sync endpoint (`app/activity_routes.py`) restricted to a
representative subset, plus the lazily populated `insights` sub-document.
`oid` models the Mongo `_id`. -/
structure ActDoc where
  oid : Nat
  strava_activity_id : Int
  strava_id : Int
  user_id : Int
  name : String
  distance : ℚ
  moving_time : ℚ
  total_elevation_gain : ℚ
  calories : Option ℚ
  activity_type : String
  start_date : Int
  insights : Option InsightPayload
  created_at : Nat
  updated_at : Nat
deriving Repr, DecidableEq

/-- The Mongo filter used by `_find_activity_for_user` when looking up by
`_id`: both the ObjectId and the owning user must match. -/
def matchesOidQuery (uid : Int) (o : Nat) (d : ActDoc) : Bool :=
  d.oid == o && d.user_id == uid

/-- The Mongo filter used by `_find_activity_for_user` when looking up by a
numeric Strava id: the owning user must match and either external-id field may
match (`strava_activity_id` or `strava_id`). -/
def matchesSidQuery (uid : Int) (sid : Int) (d : ActDoc) : Bool :=
  d.user_id == uid && (d.strava_activity_id == sid || d.strava_id == sid)

/-- The `Union[str, int, ObjectId]` identifier accepted by
`InsightService._find_activity_for_user`. -/
inductive PyIdent where
  | objId (o : Nat)
  | str (s : String)
  | intId (sid : Int)

/-- Embedding of `InsightService._find_activity_for_user`
(`app/ai/insight_service.py`, lines 49-88). `parseOid` models `ObjectId(s)`
(raising = `none`) and `parseInt` models `int(s)`; both are parameters because
they are library calls. Every issued query is scoped to `uid`. -/
def _find_activity_for_user (parseOid : String → Option Nat)
    (parseInt : String → Option Int) (db : List ActDoc) (uid : Int) :
    PyIdent → Option ActDoc
  | .objId o => db.find? (matchesOidQuery uid o)
  | .str s =>
    match parseOid s with
    | some o =>
      match db.find? (matchesOidQuery uid o) with
      | some doc => some doc
      | none =>
        match parseInt s with
        | some sid => db.find? (matchesSidQuery uid sid)
        | none => none
    | none =>
      match parseInt s with
      | some sid => db.find? (matchesSidQuery uid sid)
      | none => none
  | .intId sid => db.find? (matchesSidQuery uid sid)

/-- Replace the first document matching `p` (Mongo `update_one` semantics on a
collection modelled as a list in natural order). -/
def updateFirst (p : ActDoc → Bool) (f : ActDoc → ActDoc) : List ActDoc → List ActDoc
  | [] => []
  | d :: ds => if p d then f d :: ds else d :: updateFirst p f ds

/-- Result of `InsightService.generate_activity_insights`: `notFound` and
`userNotFound` are the two `ValueError`s (surfaced as HTTP 404 by
`app/ai_routes.py`), `ok` carries the returned insight payload. -/
inductive GenResult where
  | notFound
  | userNotFound
  | ok (p : InsightPayload)
deriving Repr, DecidableEq

/-- Embedding of `InsightService.generate_activity_insights`
(`app/ai/insight_service.py`, lines 90-120). `users` is the set of existing
`strava_id`s in the users collection; `raw` is the reply produced by
`self.ai.generate_json`; `now` stands for `datetime.utcnow()`. Returns the
outcome together with the updated activities collection. -/
def generate_activity_insights (parseOid : String → Option Nat)
    (parseInt : String → Option Int) (db : List ActDoc) (users : List Int)
    (raw : List (String × JVal)) (now : Nat) (user_id : Int)
    (activity_id : PyIdent) (force : Bool) : GenResult × List ActDoc :=
  match _find_activity_for_user parseOid parseInt db user_id activity_id with
  | none => (.notFound, db)
  | some activity =>
    match force, activity.insights with
    | false, some cached => (.ok cached, db)
    | _, _ =>
      if users.contains user_id then
        let payload := _coerce_insight_payload raw now
        (.ok payload,
         updateFirst (fun d => d.oid == activity.oid)
           (fun d => { d with insights := some payload, updated_at := now }) db)
      else (.userNotFound, db)

/-- HTTP status produced by the `POST /api/insights/activity/.../generate`
route (`app/ai_routes.py`, lines 17-33): both `ValueError`s map to 404. -/
def insight_route_status : GenResult → Nat
  | .notFound => 404
  | .userNotFound => 404
  | .ok _ => 200

/-- An incoming activity dict as built by the sync endpoint
(`app/activity_routes.py`, lines 322-380), restricted to the representative
subset of fields carried by `ActDoc`. Either external-id key may be present. -/
structure SyncPayload where
  strava_activity_id : Option Int
  strava_id : Option Int
  user_id : Int
  name : String
  distance : ℚ
  moving_time : ℚ
  total_elevation_gain : ℚ
  calories : Option ℚ
  activity_type : String
  start_date : Int
  created_at : Option Nat
deriving Repr, DecidableEq

/-- Python `a.get("strava_activity_id") or a.get("strava_id")`: falls through
on `None` and on a falsy (zero) first value. -/
def pyOrIntOpt (a b : Option Int) : Option Int :=
  match a with
  | some v => if v == 0 then b else some v
  | none => b

/-- The `$or` filter on the two external-id fields used by the sync upsert
(`app/database/db_operations.py`, lines 529-532). -/
def sidMatch (sid : Int) (d : ActDoc) : Bool :=
  d.strava_activity_id == sid || d.strava_id == sid

/-- Effect of the sync `$set` on an existing document: every payload field is
overwritten (both id fields normalized to `sid`, `updated_at` set to `now`,
`created_at` taken from the payload or defaulted to `now`); `_id` and the
`insights` sub-document are untouched because they are not in the `$set`. -/
def setFields (p : SyncPayload) (sid : Int) (now : Nat) (d : ActDoc) : ActDoc :=
  { d with
    strava_activity_id := sid
    strava_id := sid
    user_id := p.user_id
    name := p.name
    distance := p.distance
    moving_time := p.moving_time
    total_elevation_gain := p.total_elevation_gain
    calories := p.calories
    activity_type := p.activity_type
    start_date := p.start_date
    created_at := p.created_at.getD now
    updated_at := now }

/-- Document created by an upserting `UpdateOne` that matched nothing: the
`$set` fields plus a fresh `_id`; no `insights` field. -/
def insertDoc (p : SyncPayload) (sid : Int) (now : Nat) (oid : Nat) : ActDoc :=
  { oid := oid
    strava_activity_id := sid
    strava_id := sid
    user_id := p.user_id
    name := p.name
    distance := p.distance
    moving_time := p.moving_time
    total_elevation_gain := p.total_elevation_gain
    calories := p.calories
    activity_type := p.activity_type
    start_date := p.start_date
    insights := none
    created_at := p.created_at.getD now
    updated_at := now }

/-- Running state of a `bulk_write`: the collection, the `upserted_count`,
the `modified_count`, and the next fresh `_id`. -/
structure SyncState where
  db : List ActDoc
  created : Nat
  updated : Nat
  fresh : Nat

/-- Counts reported by `sync_user_activities`. -/
structure SyncResult where
  created : Nat
  updated : Nat
  total : Nat
deriving Repr, DecidableEq

/-- One `UpdateOne(filter, $set, upsert=True)` of the bulk write: a payload
without a usable external id is skipped; a matched document is overwritten
(counted in `modified_count` only if it actually changes, per Mongo); an
unmatched one is inserted with a fresh `_id` (counted in `upserted_count`). -/
def applySyncOp (now : Nat) (st : SyncState) (p : SyncPayload) : SyncState :=
  match pyOrIntOpt p.strava_activity_id p.strava_id with
  | none => st
  | some sid =>
    match st.db.find? (sidMatch sid) with
    | some d =>
      let d2 := setFields p sid now d
      { db := updateFirst (sidMatch sid) (fun _ => d2) st.db
        created := st.created
        updated := st.updated + (if d2 = d then 0 else 1)
        fresh := st.fresh }
    | none =>
      { db := st.db ++ [insertDoc p sid now st.fresh]
        created := st.created + 1
        updated := st.updated
        fresh := st.fresh + 1 }

/-- Embedding of `sync_user_activities` (`app/database/db_operations.py`,
lines 504-551). `now` stands for `datetime.utcnow()`; `fresh` seeds the
ObjectIds generated for inserted documents. The `user_id` argument is kept
for signature fidelity: the source never uses it (the upsert filter is keyed
only on the external activity id). -/
def sync_user_activities (db : List ActDoc) (user_id : Int)
    (activities : List SyncPayload) (now : Nat) (fresh : Nat) :
    SyncResult × List ActDoc :=
  if activities.isEmpty then (⟨0, 0, 0⟩, db)
  else
    let ops := activities.filter
      (fun p => (pyOrIntOpt p.strava_activity_id p.strava_id).isSome)
    if ops.isEmpty then (⟨0, 0, 0⟩, db)
    else
      let st := ops.foldl (applySyncOp now) ⟨db, 0, 0, fresh⟩
      (⟨st.created, st.updated, st.created + st.updated⟩, st.db)

/-- The `$match` stage shared by the stats and analytics pipelines
(`app/database/db_operations.py`, lines 232-238 and 292-296): owner, optional
exact `activity_type`, optional inclusive `start_date` bounds. -/
def statsMatch (user_id : Int) (activity_type : Option String)
    (after before : Option Int) (d : ActDoc) : Bool :=
  d.user_id == user_id &&
  (match activity_type with
   | some t => d.activity_type == t
   | none => true) &&
  (match after with
   | some a => decide (a ≤ d.start_date)
   | none => true) &&
  (match before with
   | some b => decide (d.start_date ≤ b)
   | none => true)

/-- Result shape of `get_user_activity_stats`. -/
structure StatsResult where
  total_activities : Nat
  total_distance : ℚ
  total_time : ℚ
  total_elevation : ℚ
  total_calories : ℚ
  average_distance : ℚ
  average_time : ℚ
deriving Repr, DecidableEq

/-- Sum of a rational field over the matched documents (Mongo `$sum`); the
`calories` field goes through `$ifNull` and contributes 0 when absent. -/
def sumField (f : ActDoc → ℚ) (docs : List ActDoc) : ℚ :=
  (docs.map f).sum

/-- Embedding of `get_user_activity_stats` (`app/database/db_operations.py`,
lines 225-281): a `$group` over the matched documents; an empty match yields
the all-zero result (the pipeline returns no row), otherwise averages are
`total / count`. -/
def get_user_activity_stats (db : List ActDoc) (user_id : Int)
    (activity_type : Option String) (after before : Option Int) : StatsResult :=
  let docs := db.filter (statsMatch user_id activity_type after before)
  if docs.isEmpty then ⟨0, 0, 0, 0, 0, 0, 0⟩
  else
    let n : ℚ := docs.length
    let td := sumField (·.distance) docs
    let tt := sumField (·.moving_time) docs
    let te := sumField (·.total_elevation_gain) docs
    let tc := sumField (fun d => d.calories.getD 0) docs
    ⟨docs.length, td, tt, te, tc, td / n, tt / n⟩

/-- One per-sport row of `get_analytics_summary`'s `by_sport` facet. -/
structure SportSummary where
  activity_type : String
  total_activities : Nat
  total_distance : ℚ
  total_time : ℚ
  total_elevation : ℚ
  total_calories : ℚ
  average_distance : ℚ
  average_time : ℚ
deriving Repr, DecidableEq

/-- Result shape of `get_analytics_summary`. -/
structure AnalyticsSummary where
  summary : StatsResult
  by_sport : List SportSummary
deriving Repr, DecidableEq

/-- Group keys of the `by_sport` facet: distinct `activity_type` values of the
matched documents, sorted ascending (the `$sort` on `_id`). -/
def sportKeys (docs : List ActDoc) : List String :=
  ((docs.map (·.activity_type)).dedup).mergeSort (fun a b => a ≤ b)

/-- One `by_sport` row (`app/database/db_operations.py`, lines 364-377). -/
def sportRow (docs : List ActDoc) (k : String) : SportSummary :=
  let grp := docs.filter (fun d => d.activity_type == k)
  let n : ℚ := grp.length
  { activity_type := k
    total_activities := grp.length
    total_distance := sumField (·.distance) grp
    total_time := sumField (·.moving_time) grp
    total_elevation := sumField (·.total_elevation_gain) grp
    total_calories := sumField (fun d => d.calories.getD 0) grp
    average_distance := if grp.length > 0 then sumField (·.distance) grp / n else 0
    average_time := if grp.length > 0 then sumField (·.moving_time) grp / n else 0 }

/-- Embedding of `get_analytics_summary` (`app/database/db_operations.py`,
lines 283-379): a `$facet` computing the overall summary (empty facet row
defaulted to zeros, averages `total / count` guarded by `count > 0`) and the
per-sport breakdown sorted by sport ascending. -/
def get_analytics_summary (db : List ActDoc) (user_id : Int)
    (after before : Option Int) : AnalyticsSummary :=
  let docs := db.filter (statsMatch user_id none after before)
  let base : StatsResult :=
    if docs.isEmpty then ⟨0, 0, 0, 0, 0, 0, 0⟩
    else
      let n : ℚ := docs.length
      let td := sumField (·.distance) docs
      let tt := sumField (·.moving_time) docs
      let te := sumField (·.total_elevation_gain) docs
      let tc := sumField (fun d => d.calories.getD 0) docs
      ⟨docs.length, td, tt, te, tc, td / n, tt / n⟩
  { summary := base
    by_sport := (sportKeys docs).map (sportRow docs) }

/-- Unscoped match: does a stored document answer to the given identifier at
all (for any owner)? Used to state that an identifier resolving only to other
users' activities yields `NotFound`. -/
def identMatches (parseOid : String → Option Nat) (parseInt : String → Option Int)
    (ident : PyIdent) (d : ActDoc) : Bool :=
  match ident with
  | .objId o => d.oid == o
  | .intId sid => d.strava_activity_id == sid || d.strava_id == sid
  | .str s =>
    (match parseOid s with
     | some o => d.oid == o
     | none => false) ||
    (match parseInt s with
     | some sid => d.strava_activity_id == sid || d.strava_id == sid
     | none => false)

/-- A concrete activity owned by user 2, used in witnesses. -/
def otherUserDoc : ActDoc :=
  { oid := 11
    strava_activity_id := 42
    strava_id := 42
    user_id := 2
    name := "Morning Run"
    distance := 5000
    moving_time := 1800
    total_elevation_gain := 40
    calories := some 320
    activity_type := "Run"
    start_date := 1700000000
    insights := none
    created_at := 10
    updated_at := 10 }

/-- A concrete activity owned by user 1 with distance 1000, used in witnesses. -/
def demoDocA : ActDoc :=
  { oid := 21
    strava_activity_id := 101
    strava_id := 101
    user_id := 1
    name := "Long Ride"
    distance := 1000
    moving_time := 600
    total_elevation_gain := 10
    calories := none
    activity_type := "Ride"
    start_date := 1700000100
    insights := none
    created_at := 11
    updated_at := 11 }

/-- A concrete activity owned by user 1 with distance 0, used in witnesses. -/
def demoDocB : ActDoc :=
  { oid := 22
    strava_activity_id := 102
    strava_id := 102
    user_id := 1
    name := "Short Walk"
    distance := 0
    moving_time := 300
    total_elevation_gain := 0
    calories := none
    activity_type := "Walk"
    start_date := 1700000200
    insights := none
    created_at := 12
    updated_at := 12 }

/-- A concrete sync payload for external activity 42, used in witnesses. -/
def demoPayload1 : SyncPayload :=
  { strava_activity_id := none
    strava_id := some 42
    user_id := 1
    name := "Evening Run"
    distance := 4000
    moving_time := 1500
    total_elevation_gain := 25
    calories := none
    activity_type := "Run"
    start_date := 1700000300
    created_at := none }

/-- A second sync payload for the same external activity 42 with different
fields, used in witnesses. -/
def demoPayload2 : SyncPayload :=
  { strava_activity_id := none
    strava_id := some 42
    user_id := 1
    name := "Evening Run (corrected)"
    distance := 4100
    moving_time := 1550
    total_elevation_gain := 30
    calories := some 400
    activity_type := "Run"
    start_date := 1700000300
    created_at := none }

/-- Helper: the round-trip property of `toyCipher`. -/
theorem toyCipher_roundtrip (t : String) : toyCipher.dec (toyCipher.enc t) = some t := rfl

/-- Helper: `toyCipher` never encrypts a nonempty token to the empty string. -/
theorem toyCipher_enc_ne (t : String) (h : t ≠ "") : toyCipher.enc t ≠ "" := by
  intro hc
  have := congrArg String.data hc
  simp [toyCipher] at this

/-- Claim C2, counterexample: at the exact buffer boundary (now equal to
`expires_at - 5` minutes) the code returns `false`, while the claim's
`now >= expires_at - 5 minutes` condition holds. -/
theorem token_expiry_boundary_counterexample :
    is_strava_token_expired (some (some 300)) 0 = false ∧ (0 : ℚ) ≥ 300 - 5 * 60 := by
  constructor
  · simp [is_strava_token_expired]
    norm_num
  · norm_num

/-- Claim C2 (amended): the check is true exactly when `now` is strictly past
`expires_at - 5` minutes; in particular it is true for an expiry 10 minutes in
the past, true 4 minutes in the future, and false 10 minutes in the future. -/
theorem token_expiry_buffer (e now : ℚ) :
    (is_strava_token_expired (some (some e)) now = true ↔ now > e - 5 * 60) ∧
    is_strava_token_expired (some (some (now - 10 * 60))) now = true ∧
    is_strava_token_expired (some (some (now + 4 * 60))) now = true ∧
    is_strava_token_expired (some (some (now + 10 * 60))) now = false := by
  refine ⟨by simp [is_strava_token_expired], ?_, ?_, ?_⟩ <;>
    simp only [is_strava_token_expired, decide_eq_true_eq, decide_eq_false_iff_not, not_lt] <;>
    linarith

/-- Claim C10: a falsy `token_data` (None or empty dict) and a dict lacking
the `expires_at` key are both reported expired, so the middleware's refresh
path is taken rather than trusting a stale stored token. -/
theorem token_expiry_missing_data (now : ℚ) :
    is_strava_token_expired none now = true ∧
    is_strava_token_expired (some none) now = true :=
  ⟨rfl, rfl⟩

/-- Claim C3: for a cipher whose decrypt inverts encrypt (and whose
ciphertexts of nonempty tokens are nonempty, as Fernet's are),
`decrypt_token` inverts `encrypt_token` on every token, both functions map
the empty string to itself, and every input the cipher rejects decrypts to
the empty string instead of raising. -/
theorem encrypt_decrypt_roundtrip (c : Cipher)
    (hround : ∀ t, c.dec (c.enc t) = some t)
    (hne : ∀ t, t ≠ "" → c.enc t ≠ "") :
    (∀ t, decrypt_token c (encrypt_token c t) = t) ∧
    encrypt_token c "" = "" ∧
    decrypt_token c "" = "" ∧
    (∀ s, c.dec s = none → decrypt_token c s = "") := by
  refine ⟨?_, rfl, rfl, ?_⟩
  · intro t
    by_cases ht : t = ""
    · subst ht; rfl
    · have h1 : encrypt_token c t = c.enc t := by simp [encrypt_token, ht]
      rw [h1, decrypt_token]
      simp [hne t ht, hround t]
  · intro s hs
    rw [decrypt_token]
    by_cases h : s = "" <;> simp [h, hs]

/-- Witness for C3 at the toy cipher and concrete strings. -/
theorem encrypt_decrypt_roundtrip_witness :
    decrypt_token toyCipher (encrypt_token toyCipher "secret") = "secret" ∧
    decrypt_token toyCipher "garbage" = "" := by
  have H := encrypt_decrypt_roundtrip toyCipher toyCipher_roundtrip toyCipher_enc_ne
  exact ⟨H.1 "secret", H.2.2.2 "garbage" rfl⟩

/-- Claim C4: when the first upstream response is a 401, the client performs
exactly one forced token refresh and at most one retry (never a third
request); when the refresh succeeds there is exactly one retry, when it fails
the original 401 propagates, and a second 401 on the retry propagates to the
caller as the auth error. -/
theorem upstream_401_single_retry (u : Upstream) (h : u.resp1 = .err 401) :
    (get_user_profile u).refreshes = 1 ∧
    (get_user_profile u).requests ≤ 2 ∧
    (∀ tk, u.refreshResult = some tk → (get_user_profile u).requests = 2) ∧
    (u.refreshResult = none →
      (get_user_profile u).requests = 1 ∧ (get_user_profile u).result = .error 401) ∧
    (u.resp2 = .err 401 → (get_user_profile u).result = .error 401) := by
  rcases u with ⟨r1, rr, r2⟩
  simp only at h
  subst h
  cases rr <;> rcases r2 with b | code2 <;>
    simp [get_user_profile]

/-- Witness for C4: first response 401, refresh succeeds, retry 401 again. -/
theorem upstream_401_single_retry_witness :
    (get_user_profile ⟨.err 401, some 7, .err 401⟩).refreshes = 1 ∧
    (get_user_profile ⟨.err 401, some 7, .err 401⟩).requests = 2 ∧
    (get_user_profile ⟨.err 401, some 7, .err 401⟩).result = .error 401 := by
  have H := upstream_401_single_retry ⟨.err 401, some 7, .err 401⟩ rfl
  exact ⟨H.1, H.2.2.1 7 rfl, H.2.2.2.2 rfl⟩

/-- Helper: a truncated list is no longer than the cutoff. -/
theorem take_length_le (n : Nat) (l : List String) : (l.take n).length ≤ n := by
  simp only [List.length_take]
  omega

/-- Helper: Python slicing bounds the string length by the cutoff. -/
theorem pySlice_length_le (s : String) (n : Nat) : (pySlice s n).length ≤ n := by
  show (s.data.take n).length ≤ n
  simp only [List.length_take]
  omega

/-- Helper: lowercasing a character never yields an ASCII uppercase letter. -/
theorem isAsciiUpper_pyCharLower (c : Char) : isAsciiUpper (pyCharLower c) = false := by
  rw [pyCharLower]
  by_cases h : isAsciiUpper c = true
  · rw [if_pos h]
    have hb : 65 ≤ c.toNat ∧ c.toNat ≤ 90 := by
      simpa [isAsciiUpper] using h
    have hv : (c.toNat + 32).isValidChar := Or.inl (by omega)
    have ht : (Char.ofNat (c.toNat + 32)).toNat = c.toNat + 32 := by
      rw [Char.ofNat, dif_pos hv]
      rfl
    simp only [isAsciiUpper, ht, decide_eq_false_iff_not]
    omega
  · rw [if_neg h]
    simpa using h

/-- Helper: stripping a string containing a non-whitespace character cannot
yield the empty string. -/
theorem pyStrip_ne_empty (s : String) (c : Char) (h : c ∈ s.data)
    (hc : c.isWhitespace = false) : pyStrip s ≠ "" := by
  intro he
  have hdata := congrArg String.data he
  have hnil : ((s.data.dropWhile Char.isWhitespace).reverse.dropWhile Char.isWhitespace).reverse
      = [] := hdata
  rw [List.reverse_eq_nil_iff, List.dropWhile_eq_nil_iff] at hnil
  have h1 : c ∈ s.data.dropWhile Char.isWhitespace := by
    have hsplit := List.takeWhile_append_dropWhile (p := Char.isWhitespace) (l := s.data)
    rw [← hsplit] at h
    rcases List.mem_append.mp h with h2 | h2
    · have := List.mem_takeWhile_imp h2
      rw [hc] at this
      cases this
    · exact h2
  have h2 : c ∈ (s.data.dropWhile Char.isWhitespace).reverse := List.mem_reverse.mpr h1
  have := hnil c h2
  rw [hc] at this
  cases this

/-- Claim C7: every normalized insight payload has a summary of at most 280
characters, at most 3 coach tips, and at most 5 tags none of which contains
an ASCII uppercase letter; oversized inputs are truncated rather than
rejected (5 tips keep the first 3, a 400-character summary keeps 280
characters) and duplicate tags survive lowercasing. -/
theorem insight_payload_bounds (raw : List (String × JVal)) (now : Nat) :
    (_coerce_insight_payload raw now).summary.length ≤ 280 ∧
    (_coerce_insight_payload raw now).coach_tips.length ≤ 3 ∧
    (_coerce_insight_payload raw now).tags.length ≤ 5 ∧
    (∀ t ∈ (_coerce_insight_payload raw now).tags, ∀ c ∈ t.data,
       isAsciiUpper c = false) ∧
    (_coerce_insight_payload
        [("coach_tips", .list [.str "t1", .str "t2", .str "t3", .str "t4", .str "t5"])]
        0).coach_tips = ["t1", "t2", "t3"] ∧
    (_coerce_insight_payload [("summary", .str (String.mk (List.replicate 400 'a')))] 0).summary
      = String.mk (List.replicate 280 'a') ∧
    (_coerce_insight_payload [("tags", .list [.str "Endurance", .str "ENDURANCE"])] 0).tags
      = ["endurance", "endurance"] := by
  refine ⟨pySlice_length_le _ _, take_length_le _ _, take_length_le _ _, ?_, by decide,
    by decide, by decide⟩
  intro t ht c hc
  have ht2 := List.mem_of_mem_take ht
  rcases List.mem_map.mp ht2 with ⟨v, _, rfl⟩
  rcases List.mem_map.mp hc with ⟨c0, _, rfl⟩
  exact isAsciiUpper_pyCharLower c0

/-- Witness for C7 at a concrete generator reply. -/
theorem insight_payload_bounds_witness :
    (_coerce_insight_payload [("tags", .list [.str "Endurance"])] 0).summary.length ≤ 280 ∧
    isAsciiUpper 'e' = false := by
  have H := insight_payload_bounds [("tags", .list [.str "Endurance"])] 0
  refine ⟨H.1, ?_⟩
  have hmem : "endurance" ∈ (_coerce_insight_payload [("tags", .list [.str "Endurance"])] 0).tags := by
    decide
  have hc : 'e' ∈ "endurance".data := by decide
  exact H.2.2.2.1 "endurance" hmem 'e' hc

/-- Claim C9: when the text-generation call fails or its output cannot be
parsed, `generate_json` yields the fixed fallback reply, so the normalized
insight is the deterministic fallback payload (fixed summary, two tips, the
`endurance` tag, a non-absent model identifier) rather than an error. -/
theorem generation_failure_fallback (provider modelName : String) (now : Nat) :
    (_coerce_insight_payload (generate_json provider modelName true .failure) now).summary
      = "Solid session focusing on aerobic base." ∧
    (_coerce_insight_payload (generate_json provider modelName true .failure) now).coach_tips
      = ["Keep cadence smooth and controlled.", "Fuel earlier for longer efforts."] ∧
    (_coerce_insight_payload (generate_json provider modelName true .failure) now).tags
      = ["endurance"] ∧
    (_coerce_insight_payload (generate_json provider modelName true .failure) now).model ≠ none ∧
    (_coerce_insight_payload (generate_json provider modelName true .failure) now).generated_at
      = now := by
  refine ⟨rfl, rfl, rfl, ?_, rfl⟩
  show (if (pyStrip (pyStr (jget (fallbackPayload provider modelName) "model" (.str ""))) == "")
          = true then none
        else some (pyStrip (pyStr (jget (fallbackPayload provider modelName) "model" (.str ""))))) ≠ none
  have hget : jget (fallbackPayload provider modelName) "model" (.str "")
      = .str ("fallback:" ++ provider ++ ":" ++ modelName) := rfl
  rw [hget]
  have hne : pyStrip (pyStr (JVal.str ("fallback:" ++ provider ++ ":" ++ modelName))) ≠ "" := by
    apply pyStrip_ne_empty _ 'f'
    · show 'f' ∈ ("fallback:" ++ provider ++ ":" ++ modelName).data
      rw [String.data_append, String.data_append, String.data_append]
      exact List.mem_append.mpr (Or.inl (List.mem_append.mpr (Or.inl
        (List.mem_append.mpr (Or.inl (by decide))))))
    · rfl
  simp [hne]

/-- Claim C8, counterexample: a successfully parsed generator reply that lacks
a `model` field normalizes to a payload whose `model` is `none` — it is left
absent, not defaulted to the generator's identifier. -/
theorem insight_model_absent_counterexample :
    (_coerce_insight_payload
      (generate_json "openai" "gpt-4o-mini" true (.success [("summary", .str "ok")])) 0).model
      = none := rfl

/-- Claim C8 (amended): a reply whose `model` entry is missing or empty
normalizes to `model = none`; the generator identifier appears only because
the mock and fallback replies built by `generate_json` itself carry a
`model` entry (`mock:...`/`fallback:...`), which normalization preserves. -/
theorem insight_model_field_behavior :
    (∀ raw now, jget raw "model" (.str "") = .str "" →
       (_coerce_insight_payload raw now).model = none) ∧
    (∀ now, (_coerce_insight_payload
        (generate_json "openai" "gpt-4o-mini" false .failure) now).model
       = some "mock:openai:gpt-4o-mini") ∧
    (∀ now, (_coerce_insight_payload
        (generate_json "openai" "gpt-4o-mini" true .failure) now).model
       = some "fallback:openai:gpt-4o-mini") ∧
    (∀ (provider modelName : String) (now : Nat) (o : LLMOutcome),
       (_coerce_insight_payload (generate_json provider modelName false o) now).model ≠ none) := by
  refine ⟨?_, fun now => rfl, fun now => rfl, ?_⟩
  · intro raw now h
    show (if (pyStrip (pyStr (jget raw "model" (.str ""))) == "") = true then none
          else some (pyStrip (pyStr (jget raw "model" (.str ""))))) = none
    rw [h]
    rfl
  · intro provider modelName now o
    show (if (pyStrip (pyStr (jget (mockPayload provider modelName) "model" (.str ""))) == "")
            = true then none
          else some (pyStrip (pyStr (jget (mockPayload provider modelName) "model" (.str ""))))) ≠ none
    have hget : jget (mockPayload provider modelName) "model" (.str "")
        = .str ("mock:" ++ provider ++ ":" ++ modelName) := rfl
    rw [hget]
    have hne : pyStrip (pyStr (JVal.str ("mock:" ++ provider ++ ":" ++ modelName))) ≠ "" := by
      apply pyStrip_ne_empty _ 'm'
      · show 'm' ∈ ("mock:" ++ provider ++ ":" ++ modelName).data
        rw [String.data_append, String.data_append, String.data_append]
        exact List.mem_append.mpr (Or.inl (List.mem_append.mpr (Or.inl
          (List.mem_append.mpr (Or.inl (by decide))))))
      · rfl
    simp [hne]

/-- Witness for C8's amended statement at concrete replies. -/
theorem insight_model_field_behavior_witness :
    (_coerce_insight_payload [] 0).model = none ∧
    (_coerce_insight_payload (generate_json "openai" "gpt-4o-mini" false .failure) 0).model
      = some "mock:openai:gpt-4o-mini" := by
  exact ⟨insight_model_field_behavior.1 [] 0 rfl, insight_model_field_behavior.2.1 0⟩

/-- The property claimed of a statistics summary: averages are the totals
divided by the count, and an empty filtered set yields all-zero totals and
averages (no division error, no NaN). -/
def statsSpecOK (s : StatsResult) : Prop :=
  (0 < s.total_activities →
     s.average_distance = s.total_distance / (s.total_activities : ℚ) ∧
     s.average_time = s.total_time / (s.total_activities : ℚ)) ∧
  (s.total_activities = 0 →
     s.total_distance = 0 ∧ s.total_time = 0 ∧ s.total_elevation = 0 ∧
     s.total_calories = 0 ∧ s.average_distance = 0 ∧ s.average_time = 0)

/-- Claim C6: for every user and filter, both `get_user_activity_stats` and
`get_analytics_summary` return averages equal to `total / count`, and when
the filtered set is empty every total and both averages are 0. -/
theorem stats_average_consistency (db : List ActDoc) (user_id : Int)
    (activity_type : Option String) (after before : Option Int) :
    statsSpecOK (get_user_activity_stats db user_id activity_type after before) ∧
    statsSpecOK (get_analytics_summary db user_id after before).summary := by
  constructor
  · rw [get_user_activity_stats]
    cases hd : (db.filter (statsMatch user_id activity_type after before)).isEmpty
    · have hnil : (db.filter (statsMatch user_id activity_type after before)) ≠ [] := by
        intro hnil
        rw [hnil] at hd
        cases hd
      have hne : (db.filter (statsMatch user_id activity_type after before)).length ≠ 0 :=
        fun hlen => hnil (List.length_eq_zero.mp hlen)
      exact ⟨fun _ => ⟨rfl, rfl⟩, fun h0 => absurd h0 hne⟩
    · exact ⟨fun h => absurd h (Nat.lt_irrefl 0), fun _ => ⟨rfl, rfl, rfl, rfl, rfl, rfl⟩⟩
  · rw [get_analytics_summary]
    cases hd : (db.filter (statsMatch user_id none after before)).isEmpty
    · have hnil : (db.filter (statsMatch user_id none after before)) ≠ [] := by
        intro hnil
        rw [hnil] at hd
        cases hd
      have hne : (db.filter (statsMatch user_id none after before)).length ≠ 0 :=
        fun hlen => hnil (List.length_eq_zero.mp hlen)
      exact ⟨fun _ => ⟨rfl, rfl⟩, fun h0 => absurd h0 hne⟩
    · exact ⟨fun h => absurd h (Nat.lt_irrefl 0), fun _ => ⟨rfl, rfl, rfl, rfl, rfl, rfl⟩⟩

/-- Witness for C6: distances 1000 and 0 average to 500; the empty store
averages to 0. -/
theorem stats_average_consistency_witness :
    (get_user_activity_stats [demoDocA, demoDocB] 1 none none none).average_distance = 500 ∧
    (get_user_activity_stats [] 1 none none none).average_distance = 0 := by
  have H := stats_average_consistency [demoDocA, demoDocB] 1 none none none
  have H0 := stats_average_consistency [] 1 none none none
  constructor
  · have h1 := (H.1.1 (by decide)).1
    rw [h1]
    norm_num [get_user_activity_stats, demoDocA, demoDocB, statsMatch, sumField]
  · exact (H0.1.2 rfl).2.2.2.2.1

/-- Helper: a document found by the ObjectId-scoped query has the queried id
and owner and lies in the collection. -/
theorem find_oid_scoped (db : List ActDoc) (uid : Int) (o : Nat) (d : ActDoc)
    (hf : db.find? (matchesOidQuery uid o) = some d) :
    d.oid = o ∧ d.user_id = uid ∧ d ∈ db := by
  have hp := List.find?_some hf
  have hm := List.mem_of_find?_eq_some hf
  simp only [matchesOidQuery, Bool.and_eq_true, beq_iff_eq] at hp
  exact ⟨hp.1, hp.2, hm⟩

/-- Helper: a document found by the Strava-id-scoped query has the queried
owner, answers to the queried external id, and lies in the collection. -/
theorem find_sid_scoped (db : List ActDoc) (uid : Int) (sid : Int) (d : ActDoc)
    (hf : db.find? (matchesSidQuery uid sid) = some d) :
    d.user_id = uid ∧ (d.strava_activity_id = sid ∨ d.strava_id = sid) ∧ d ∈ db := by
  have hp := List.find?_some hf
  have hm := List.mem_of_find?_eq_some hf
  simp only [matchesSidQuery, Bool.and_eq_true, Bool.or_eq_true, beq_iff_eq] at hp
  exact ⟨hp.1, hp.2, hm⟩

/-- Helper: whatever identifier form is used, `_find_activity_for_user` only
ever returns a document that belongs to the requesting user, matches the
identifier, and lies in the collection. -/
theorem find_activity_scoped (parseOid : String → Option Nat)
    (parseInt : String → Option Int) (db : List ActDoc) (uid : Int)
    (ident : PyIdent) (d : ActDoc)
    (hf : _find_activity_for_user parseOid parseInt db uid ident = some d) :
    d.user_id = uid ∧ d ∈ db ∧ identMatches parseOid parseInt ident d = true := by
  cases ident with
  | objId o =>
    obtain ⟨h1, h2, h3⟩ := find_oid_scoped db uid o d hf
    exact ⟨h2, h3, by simp [identMatches, h1]⟩
  | intId sid =>
    obtain ⟨h1, h2, h3⟩ := find_sid_scoped db uid sid d hf
    refine ⟨h1, h3, ?_⟩
    simp only [identMatches, Bool.or_eq_true, beq_iff_eq]
    exact h2
  | str s =>
    rw [_find_activity_for_user] at hf
    cases hpo : parseOid s with
    | some o =>
      simp only [hpo] at hf
      cases hfo : db.find? (matchesOidQuery uid o) with
      | some doc =>
        simp only [hfo, Option.some.injEq] at hf
        subst hf
        obtain ⟨h1, h2, h3⟩ := find_oid_scoped db uid o doc hfo
        refine ⟨h2, h3, ?_⟩
        simp [identMatches, hpo, h1]
      | none =>
        simp only [hfo] at hf
        cases hpi : parseInt s with
        | some sid =>
          simp only [hpi] at hf
          obtain ⟨h1, h2, h3⟩ := find_sid_scoped db uid sid d hf
          refine ⟨h1, h3, ?_⟩
          simp only [identMatches, hpo, hpi, Bool.or_eq_true, beq_iff_eq]
          right
          exact h2
        | none =>
          simp only [hpi] at hf
          cases hf
    | none =>
      simp only [hpo] at hf
      cases hpi : parseInt s with
      | some sid =>
        simp only [hpi] at hf
        obtain ⟨h1, h2, h3⟩ := find_sid_scoped db uid sid d hf
        refine ⟨h1, h3, ?_⟩
        simp only [identMatches, hpo, hpi, Bool.or_eq_true, beq_iff_eq]
        right
        exact h2
      | none =>
        simp only [hpi] at hf
        cases hf

/-- Claim C1: if every stored activity answering to the identifier belongs to
some other user (in particular if none answers to it at all), then
`generate_activity_insights` raises the not-found `ValueError` (HTTP 404),
leaves the store untouched, and the scoped lookup can never hand back
another user's record. -/
theorem insight_cross_user_isolation (parseOid : String → Option Nat)
    (parseInt : String → Option Int) (db : List ActDoc) (users : List Int)
    (raw : List (String × JVal)) (now : Nat) (A : Int) (ident : PyIdent)
    (force : Bool)
    (h : ∀ d ∈ db, identMatches parseOid parseInt ident d = true → d.user_id ≠ A) :
    generate_activity_insights parseOid parseInt db users raw now A ident force
      = (.notFound, db) ∧
    insight_route_status
      (generate_activity_insights parseOid parseInt db users raw now A ident force).1 = 404 ∧
    (∀ d, _find_activity_for_user parseOid parseInt db A ident = some d →
       d.user_id = A) := by
  have hnone : _find_activity_for_user parseOid parseInt db A ident = none := by
    cases hf : _find_activity_for_user parseOid parseInt db A ident with
    | none => rfl
    | some d =>
      obtain ⟨h1, h2, h3⟩ := find_activity_scoped parseOid parseInt db A ident d hf
      exact absurd h1 (h d h2 h3)
  refine ⟨?_, ?_, ?_⟩
  · rw [generate_activity_insights, hnone]
  · rw [generate_activity_insights, hnone]
    rfl
  · intro d hf
    exact (find_activity_scoped parseOid parseInt db A ident d hf).1

/-- Witness for C1: user 1 requests the activity with external id 42, which
belongs to user 2; the result is the not-found error and the store is
unchanged. -/
theorem insight_cross_user_isolation_witness :
    generate_activity_insights (fun _ => none) (fun _ => none) [otherUserDoc] []
      [] 0 1 (.intId 42) false = (.notFound, [otherUserDoc]) ∧
    insight_route_status
      (generate_activity_insights (fun _ => none) (fun _ => none) [otherUserDoc] []
        [] 0 1 (.intId 42) false).1 = 404 := by
  have H := insight_cross_user_isolation (fun _ => none) (fun _ => none)
    [otherUserDoc] [] [] 0 1 (.intId 42) false (by decide)
  exact ⟨H.1, H.2.1⟩

/-- Helper: an inserted document answers to its external id. -/
theorem sidMatch_insertDoc (p : SyncPayload) (sid : Int) (now oid : Nat) :
    sidMatch sid (insertDoc p sid now oid) = true := by
  simp [sidMatch, insertDoc]

/-- Helper: an overwritten document answers to the external id written into it. -/
theorem sidMatch_setFields (p : SyncPayload) (sid : Int) (now : Nat) (d : ActDoc) :
    sidMatch sid (setFields p sid now d) = true := by
  simp [sidMatch, setFields]

/-- Helper: `updateFirst` on a head that matches rewrites just the head. -/
theorem updateFirst_cons_pos (p : ActDoc → Bool) (f : ActDoc → ActDoc)
    (d : ActDoc) (ds : List ActDoc) (h : p d = true) :
    updateFirst p f (d :: ds) = f d :: ds := by
  simp [updateFirst, h]

/-- Helper: `updateFirst` skips over an unmatched prefix. -/
theorem updateFirst_append_of_none (p : ActDoc → Bool) (f : ActDoc → ActDoc)
    (l1 l2 : List ActDoc) (h : ∀ x ∈ l1, p x = false) :
    updateFirst p f (l1 ++ l2) = l1 ++ updateFirst p f l2 := by
  induction l1 with
  | nil => rfl
  | cons a l ih =>
    have ha : p a = false := h a (List.mem_cons_self a l)
    simp only [List.cons_append, updateFirst, ha, Bool.false_eq_true, if_false, List.cons.injEq,
      true_and]
    exact ih (fun x hx => h x (List.mem_cons_of_mem a hx))

/-- Helper: a one-payload sync that matches nothing inserts the document and
reports one creation. -/
theorem sync_single_insert (db : List ActDoc) (uid : Int) (p : SyncPayload)
    (sid : Int) (now fresh : Nat)
    (h1 : pyOrIntOpt p.strava_activity_id p.strava_id = some sid)
    (h0 : db.find? (sidMatch sid) = none) :
    sync_user_activities db uid [p] now fresh
      = (⟨1, 0, 1⟩, db ++ [insertDoc p sid now fresh]) := by
  rw [sync_user_activities]
  simp only [List.isEmpty_cons, Bool.false_eq_true, if_false, List.filter,
    h1, Option.isSome_some, List.foldl, applySyncOp, h0]

/-- Helper: a one-payload sync that matches an existing document overwrites it
in place and reports one update when the overwrite changes it. -/
theorem sync_single_update (db : List ActDoc) (uid : Int) (p : SyncPayload)
    (sid : Int) (now fresh : Nat) (d : ActDoc)
    (h1 : pyOrIntOpt p.strava_activity_id p.strava_id = some sid)
    (hfind : db.find? (sidMatch sid) = some d)
    (hchange : setFields p sid now d ≠ d) :
    sync_user_activities db uid [p] now fresh
      = (⟨0, 1, 1⟩, updateFirst (sidMatch sid) (fun _ => setFields p sid now d) db) := by
  rw [sync_user_activities]
  simp only [List.isEmpty_cons, Bool.false_eq_true, if_false, List.filter,
    h1, Option.isSome_some, List.foldl, applySyncOp, hfind, hchange, if_neg hchange]

/-- Claim C5: syncing the same external activity id twice (an empty prior
store for that id, two successive one-element batches with different
payloads) leaves exactly one stored record for that id, that record carries
the second payload's fields, and the reported counts are `created 1 /
updated 0` then `created 0 / updated 1`. -/
theorem sync_upsert_idempotence (db0 : List ActDoc) (uid : Int)
    (p1 p2 : SyncPayload) (sid : Int) (now1 now2 fresh1 fresh2 : Nat)
    (h1 : pyOrIntOpt p1.strava_activity_id p1.strava_id = some sid)
    (h2 : pyOrIntOpt p2.strava_activity_id p2.strava_id = some sid)
    (h0 : ∀ d ∈ db0, sidMatch sid d = false)
    (hdiff : setFields p2 sid now2 (insertDoc p1 sid now1 fresh1)
      ≠ insertDoc p1 sid now1 fresh1) :
    (sync_user_activities db0 uid [p1] now1 fresh1).1 = ⟨1, 0, 1⟩ ∧
    (sync_user_activities (sync_user_activities db0 uid [p1] now1 fresh1).2
       uid [p2] now2 fresh2).1 = ⟨0, 1, 1⟩ ∧
    (sync_user_activities (sync_user_activities db0 uid [p1] now1 fresh1).2
       uid [p2] now2 fresh2).2
      = db0 ++ [setFields p2 sid now2 (insertDoc p1 sid now1 fresh1)] ∧
    ((sync_user_activities (sync_user_activities db0 uid [p1] now1 fresh1).2
        uid [p2] now2 fresh2).2.filter (sidMatch sid)).length = 1 ∧
    (setFields p2 sid now2 (insertDoc p1 sid now1 fresh1)).name = p2.name ∧
    (setFields p2 sid now2 (insertDoc p1 sid now1 fresh1)).distance = p2.distance ∧
    (setFields p2 sid now2 (insertDoc p1 sid now1 fresh1)).strava_activity_id = sid ∧
    (setFields p2 sid now2 (insertDoc p1 sid now1 fresh1)).strava_id = sid ∧
    (setFields p2 sid now2 (insertDoc p1 sid now1 fresh1)).updated_at = now2 := by
  have hfindnone : db0.find? (sidMatch sid) = none :=
    List.find?_eq_none.mpr (fun x hx => by simp [h0 x hx])
  have e1 := sync_single_insert db0 uid p1 sid now1 fresh1 h1 hfindnone
  have hd1 : sidMatch sid (insertDoc p1 sid now1 fresh1) = true :=
    sidMatch_insertDoc p1 sid now1 fresh1
  have hfind2 : (db0 ++ [insertDoc p1 sid now1 fresh1]).find? (sidMatch sid)
      = some (insertDoc p1 sid now1 fresh1) := by
    rw [List.find?_append, hfindnone]
    simp [List.find?_cons_of_pos, hd1]
  have e2 := sync_single_update (db0 ++ [insertDoc p1 sid now1 fresh1]) uid p2 sid
    now2 fresh2 (insertDoc p1 sid now1 fresh1) h2 hfind2 hdiff
  have hupd : updateFirst (sidMatch sid)
      (fun _ => setFields p2 sid now2 (insertDoc p1 sid now1 fresh1))
      (db0 ++ [insertDoc p1 sid now1 fresh1])
      = db0 ++ [setFields p2 sid now2 (insertDoc p1 sid now1 fresh1)] := by
    rw [updateFirst_append_of_none _ _ _ _ h0,
      updateFirst_cons_pos _ _ _ _ hd1]
  refine ⟨by rw [e1], ?_, ?_, ?_, rfl, rfl, rfl, rfl, rfl⟩
  · rw [e1, e2]
  · rw [e1, e2, hupd]
  · rw [e1, e2, hupd]
    rw [List.filter_append]
    have hf0 : db0.filter (sidMatch sid) = [] :=
      List.filter_eq_nil_iff.mpr (fun a ha => by simp [h0 a ha])
    rw [hf0]
    simp [sidMatch_setFields]

/-- Witness for C5: two concrete one-element batches for external id 42
against an empty store. -/
theorem sync_upsert_idempotence_witness :
    (sync_user_activities [] 1 [demoPayload1] 100 50).1 = ⟨1, 0, 1⟩ ∧
    (sync_user_activities (sync_user_activities [] 1 [demoPayload1] 100 50).2
       1 [demoPayload2] 200 60).1 = ⟨0, 1, 1⟩ ∧
    (sync_user_activities (sync_user_activities [] 1 [demoPayload1] 100 50).2
       1 [demoPayload2] 200 60).2
      = [setFields demoPayload2 42 200 (insertDoc demoPayload1 42 100 50)] := by
  have H := sync_upsert_idempotence [] 1 demoPayload1 demoPayload2 42 100 200 50 60
    (by decide) (by decide) (by intro d hd; cases hd) (by decide)
  exact ⟨H.1, H.2.1, H.2.2.1⟩
